import Mathlib

/-!
Verification of the transcription WebSocket relay in `app.py`
(class `TranscriptionManager` and handler `handle_transcribe_ws`).

The embedding models:
  * the JSON values that `json.loads` can return, together with the Python
    behaviour of `value.get("action")` — only dicts have a `get` attribute,
    every other parsed value raises an `AttributeError`;
  * the per-connection manager state (`speech_recognizer` handle present or
    not, `is_running` flag) and the idempotent `start_recognition` /
    `stop_recognition` methods, with the upstream SDK call allowed to
    succeed or raise (raises are swallowed, as in the source);
  * the recognizer event handlers (`_recognized_handler`,
    `_canceled_handler`, `_recognizing_handler`, `_session_stopped_handler`)
    as functions from the event payload to the outbound message they
    schedule, and `_send_message` over an arbitrary socket-send behaviour;
  * the message loop of `handle_transcribe_ws` as a function over the finite
    list of frames delivered by the transport, producing an event trace
    (outbound sends, method invocations, upstream SDK calls) and an exit
    reason.
-/

/-- Outbound message relayed to the client: a `type` discriminant and a
`text` payload, as built by `ws.send_json` call sites in `app.py`. -/
structure OutMsg where
  type : String
  text : String
  deriving DecidableEq, Repr

/-- Values `json.loads` can produce: objects (dicts), arrays (lists),
strings, numbers, booleans and null. -/
inductive JsonValue where
  | obj (fields : List (String × JsonValue))
  | arr (items : List JsonValue)
  | str (s : String)
  | num (n : Int)
  | bool (b : Bool)
  | null
  deriving Repr

/-- Python type name of a parsed JSON value, as it appears in the
`AttributeError` text raised by `data.get` on a non-dict. -/
def pyTypeName : JsonValue → String
  | JsonValue.obj _ => "dict"
  | JsonValue.arr _ => "list"
  | JsonValue.str _ => "str"
  | JsonValue.num _ => "int"
  | JsonValue.bool _ => "bool"
  | JsonValue.null => "NoneType"

/-- Python comparison `data.get("action") == "close"`: the lookup result
equals the string `"close"` only when it is that very string value. -/
def isCloseValue : Option JsonValue → Bool
  | some (JsonValue.str s) => s == "close"
  | _ => false

/-- A frame delivered by `async for msg in ws`. A text frame carries the
result of `json.loads(msg.data)`: either a parsed value or the
`json.JSONDecodeError` text. `error` and `close` are the transport-level
`WSMsgType.ERROR` / `WSMsgType.CLOSE` frames; `binary` stands for any
other frame type, which falls through all branches of the loop body. -/
inductive WSMsg where
  | text (parse : Except String JsonValue)
  | binary
  | error
  | close
  deriving Repr

/-- How the `async for` loop of `handle_transcribe_ws` ended. -/
inductive ExitReason where
  | clientClose
  | transportError
  | transportClose
  | streamEnd
  | exn (e : String)
  deriving DecidableEq, Repr

/-- Result of executing the loop body on one frame: continue (with the
messages sent from inside the body), `break` out of the loop, or an
uncaught exception propagating to the outer `except`. -/
inductive FrameResult where
  | cont (sends : List OutMsg)
  | exitLoop (r : ExitReason)
  | raised (e : String)
  deriving Repr

/-- Loop body of `handle_transcribe_ws` on one inbound frame.
Text frame: `json.loads` failure is caught by the inner
`except json.JSONDecodeError` and answered with one `Invalid JSON` error
frame; on success `data.get("action")` is evaluated — an `AttributeError`
for non-dict values propagates out of the body — and `== "close"` breaks
the loop, anything else is logged and ignored. `ERROR` and `CLOSE`
transport frames break the loop; other frame types are ignored. -/
def processFrame : WSMsg → FrameResult
  | WSMsg.text parse =>
    match parse with
    | Except.error e =>
        FrameResult.cont [⟨"error", "Invalid JSON: " ++ e⟩]
    | Except.ok v =>
      match v with
      | JsonValue.obj fields =>
          if isCloseValue (fields.lookup "action") then
            FrameResult.exitLoop ExitReason.clientClose
          else
            FrameResult.cont []
      | _ =>
          FrameResult.raised
            ("'" ++ pyTypeName v ++ "' object has no attribute 'get'")
  | WSMsg.binary => FrameResult.cont []
  | WSMsg.error => FrameResult.exitLoop ExitReason.transportError
  | WSMsg.close => FrameResult.exitLoop ExitReason.transportClose

/-- A text frame whose payload parses to a JSON object (dict) without an
`action` field equal to `"close"`: the shape the loop body accepts and
ignores without sending, breaking, or raising. -/
def benignFrame : WSMsg → Bool
  | WSMsg.text (Except.ok (JsonValue.obj fields)) =>
      !(isCloseValue (fields.lookup "action"))
  | _ => false

/-- The `async for msg in ws` loop over the finite list of frames the
transport delivers: returns the outbound messages sent from inside the
loop, in order, and the reason the loop ended. An exhausted list is the
transport ending the iteration (`streamEnd`). -/
def runLoop : List WSMsg → List OutMsg × ExitReason
  | [] => ([], ExitReason.streamEnd)
  | m :: rest =>
    match processFrame m with
    | FrameResult.cont s =>
        let r := runLoop rest
        (s ++ r.1, r.2)
    | FrameResult.exitLoop r => ([], r)
    | FrameResult.raised e => ([], ExitReason.exn e)

/-- Per-connection state of `TranscriptionManager`: whether
`self.speech_recognizer` holds a recognizer (versus `None`), and the
`self.is_running` flag. -/
structure TranscriptionManager where
  speech_recognizer : Bool
  is_running : Bool
  deriving DecidableEq, Repr

/-- Observable events of a session, in order: an outbound message written
to the client socket, an invocation of `start_recognition` /
`stop_recognition`, and the underlying SDK calls
`start_continuous_recognition` / `stop_continuous_recognition`. -/
inductive Ev where
  | sent (m : OutMsg)
  | startCall
  | upstreamStart
  | stopCall
  | upstreamStop
  deriving DecidableEq, Repr

/-- Outbound messages of a trace, in order. -/
def outboundOf (tr : List Ev) : List OutMsg :=
  tr.filterMap fun e =>
    match e with
    | Ev.sent m => some m
    | _ => none

/-- Number of `stop_recognition` invocations in a trace. -/
def countStopCalls (tr : List Ev) : Nat :=
  tr.countP fun e =>
    match e with
    | Ev.stopCall => true
    | _ => false

/-- Number of upstream `start_continuous_recognition` calls in a trace. -/
def countUpstreamStarts (tr : List Ev) : Nat :=
  tr.countP fun e =>
    match e with
    | Ev.upstreamStart => true
    | _ => false

/-- Number of upstream `stop_continuous_recognition` calls in a trace. -/
def countUpstreamStops (tr : List Ev) : Nat :=
  tr.countP fun e =>
    match e with
    | Ev.upstreamStop => true
    | _ => false

/-- Method `start_recognition`: acts only if a recognizer exists and the
running flag is clear; then it calls the upstream SDK start and, on
success (`upstreamOk`), sets `is_running`; a raise is caught, logged and
swallowed, leaving the flag clear. Returns the new state and the events
of this invocation. -/
def start_recognition (m : TranscriptionManager) (upstreamOk : Bool) :
    TranscriptionManager × List Ev :=
  if m.speech_recognizer && !m.is_running then
    ({ m with is_running := upstreamOk }, [Ev.startCall, Ev.upstreamStart])
  else
    (m, [Ev.startCall])

/-- Method `stop_recognition`: mirror of `start_recognition` — acts only
if a recognizer exists and the running flag is set; calls the upstream SDK
stop and on success clears `is_running`; a raise is swallowed, leaving the
flag set. -/
def stop_recognition (m : TranscriptionManager) (upstreamOk : Bool) :
    TranscriptionManager × List Ev :=
  if m.speech_recognizer && m.is_running then
    ({ m with is_running := !upstreamOk }, [Ev.stopCall, Ev.upstreamStop])
  else
    (m, [Ev.stopCall])

/-- Python truthiness of `os.getenv` results as tested by
`if not speech_key or not service_region`: absent or empty strings are
falsy. -/
def pyFalsy : Option String → Bool
  | none => true
  | some s => s.isEmpty

/-- Method `initialize_speech_recognizer`: reads the `api_key` / `region`
environment values; missing or empty values raise a `ValueError`, and any
construction error (`constrErr`) raises too; every raise is caught by the
method's own `except`, which sends one error frame and returns `False`.
On success the recognizer is attached and `True` is returned. -/
def initialize_speech_recognizer (speech_key service_region : Option String)
    (constrErr : Option String) :
    Bool × TranscriptionManager × List OutMsg :=
  if pyFalsy speech_key || pyFalsy service_region then
    (false, ⟨false, false⟩,
      [⟨"error",
        "Failed to initialize speech recognition: Please set api_key and region in your .env file"⟩])
  else
    match constrErr with
    | some e =>
        (false, ⟨false, false⟩,
          [⟨"error", "Failed to initialize speech recognition: " ++ e⟩])
    | none => (true, ⟨true, false⟩, [])

/-- Events appended by the handler's outer `except Exception` clause: an
uncaught loop-body exception is answered with one `Server error` frame;
every other way out of the loop appends nothing. -/
def errEvents : ExitReason → List Ev
  | ExitReason.exn e => [Ev.sent ⟨"error", "Server error: " ++ e⟩]
  | _ => []

/-- Result of one run of `handle_transcribe_ws`: the ordered event trace,
the loop's exit reason (`none` when initialization failed and the handler
returned before the loop), and the final manager state. -/
structure SessionResult where
  trace : List Ev
  exit : Option ExitReason
  finalState : TranscriptionManager
  deriving DecidableEq, Repr

/-- Handler `handle_transcribe_ws` over one connection: initialize the
recognizer — on failure the init error frame was already sent and the
handler returns `ws` at once — then `start_recognition` (upstream start
succeeding iff `startOk`), then the message loop inside
`try ... except Exception ... finally`, whose `finally` always invokes
`stop_recognition`. -/
def handle_transcribe_ws (speech_key service_region : Option String)
    (constrErr : Option String) (startOk : Bool) (frames : List WSMsg) :
    SessionResult :=
  match initialize_speech_recognizer speech_key service_region constrErr with
  | (false, m, msgs) => ⟨msgs.map Ev.sent, none, m⟩
  | (true, m, _) =>
    let s := start_recognition m startOk
    let p := runLoop frames
    let stp := stop_recognition s.1 true
    ⟨s.2 ++ p.1.map Ev.sent ++ errEvents p.2 ++ stp.2, some p.2, stp.1⟩

/-- Result reasons distinguished by `_recognized_handler`. -/
inductive ResultReason where
  | RecognizedSpeech
  | NoMatch
  deriving DecidableEq, Repr

/-- The `evt.result` payload of a recognition event. -/
structure RecoResult where
  reason : ResultReason
  text : String
  deriving DecidableEq, Repr

/-- A recognition event as received by the handlers. -/
structure RecoEvt where
  result : RecoResult
  deriving DecidableEq, Repr

/-- Handler `_recognizing_handler`: schedules one partial-transcript
message per partial result. -/
def _recognizing_handler (evt : RecoEvt) : List OutMsg :=
  [⟨"partial_transcript", evt.result.text⟩]

/-- Handler `_recognized_handler`: schedules one final-transcript message
when the reason is `RecognizedSpeech`; a `NoMatch` result is logged only,
nothing is scheduled. -/
def _recognized_handler (evt : RecoEvt) : List OutMsg :=
  match evt.result.reason with
  | ResultReason.RecognizedSpeech => [⟨"final_transcript", evt.result.text⟩]
  | ResultReason.NoMatch => []

/-- Cancellation reasons of the speech SDK. -/
inductive CancellationReason where
  | Error
  | EndOfStream
  | CancelledByUser
  deriving DecidableEq, Repr

/-- The text `f"{evt.reason}"` interpolates for a cancellation reason
(Python enum `str`). -/
def cancellationReasonDisplay : CancellationReason → String
  | CancellationReason.Error => "CancellationReason.Error"
  | CancellationReason.EndOfStream => "CancellationReason.EndOfStream"
  | CancellationReason.CancelledByUser => "CancellationReason.CancelledByUser"

/-- A cancellation event: its reason and its `error_details` field. -/
structure CanceledEvt where
  reason : CancellationReason
  error_details : String
  deriving DecidableEq, Repr

/-- Handler `_canceled_handler`: builds
`"Recognition canceled. Reason: " + str(reason)` and, when the reason is
`Error`, appends `" Error details: " + details`; schedules the result as
one error message. -/
def _canceled_handler (evt : CanceledEvt) : OutMsg :=
  let error_msg :=
    "Recognition canceled. Reason: " ++ cancellationReasonDisplay evt.reason
  let error_msg :=
    if evt.reason = CancellationReason.Error then
      error_msg ++ " Error details: " ++ evt.error_details
    else
      error_msg
  ⟨"error", error_msg⟩

/-- Handler `_session_stopped_handler`: schedules one info message. -/
def _session_stopped_handler : OutMsg :=
  ⟨"info", "Session stopped"⟩

/-- Method `_send_message` over an arbitrary socket-send behaviour
`send_json` (which may raise with some text): the body is one
`try: await self.ws.send_json(message) except Exception: log`, so the
method itself never raises — it returns normally with the state untouched
and at most a log line recording the swallowed send failure. -/
def _send_message (send_json : OutMsg → Except String Unit)
    (st : TranscriptionManager) (message : OutMsg) :
    Except String (TranscriptionManager × Option String) :=
  match send_json message with
  | Except.ok _ => Except.ok (st, none)
  | Except.error e =>
      Except.ok (st, some ("Failed to send message to client: " ++ e))

/-! ## Helper lemmas -/

lemma outboundOf_append (a b : List Ev) :
    outboundOf (a ++ b) = outboundOf a ++ outboundOf b :=
  List.filterMap_append a b _

lemma outboundOf_map_sent (l : List OutMsg) :
    outboundOf (l.map Ev.sent) = l := by
  induction l with
  | nil => rfl
  | cons x xs ih => simpa [outboundOf] using ih

lemma countStopCalls_append (a b : List Ev) :
    countStopCalls (a ++ b) = countStopCalls a + countStopCalls b :=
  List.countP_append _ a b

lemma countStopCalls_map_sent (l : List OutMsg) :
    countStopCalls (l.map Ev.sent) = 0 := by
  induction l with
  | nil => rfl
  | cons x xs _ => simp [countStopCalls]

lemma countUpstreamStops_append (a b : List Ev) :
    countUpstreamStops (a ++ b) = countUpstreamStops a + countUpstreamStops b :=
  List.countP_append _ a b

lemma countUpstreamStops_map_sent (l : List OutMsg) :
    countUpstreamStops (l.map Ev.sent) = 0 := by
  induction l with
  | nil => rfl
  | cons x xs _ => simp [countUpstreamStops]

/-- Normal form of a session whose initialization succeeded: the
`start_recognition` events, then the loop's sends, then the outer-except
events determined by the exit reason, then the `finally` stop events. -/
lemma handle_ok (k r : Option String) (startOk : Bool) (frames : List WSMsg)
    (hk : pyFalsy k = false) (hr : pyFalsy r = false) :
    handle_transcribe_ws k r none startOk frames =
      ⟨[Ev.startCall, Ev.upstreamStart] ++ (runLoop frames).1.map Ev.sent
         ++ errEvents (runLoop frames).2
         ++ Ev.stopCall :: (if startOk then [Ev.upstreamStop] else []),
       some (runLoop frames).2, ⟨true, false⟩⟩ := by
  unfold handle_transcribe_ws initialize_speech_recognizer
  rw [hk, hr]
  cases startOk <;> simp [start_recognition, stop_recognition]

lemma processFrame_benign (f : WSMsg) (h : benignFrame f = true) :
    processFrame f = FrameResult.cont [] := by
  cases f with
  | text p =>
    cases p with
    | error e => simp [benignFrame] at h
    | ok v =>
      cases v with
      | obj fields =>
        simp [benignFrame] at h
        simp [processFrame, h]
      | arr items => simp [benignFrame] at h
      | str s => simp [benignFrame] at h
      | num n => simp [benignFrame] at h
      | bool b => simp [benignFrame] at h
      | null => simp [benignFrame] at h
  | binary => rfl
  | error => simp [benignFrame] at h
  | close => simp [benignFrame] at h

lemma outboundOf_stopEvents (b : Bool) :
    outboundOf (Ev.stopCall :: (if b then [Ev.upstreamStop] else [])) = [] := by
  cases b <;> rfl

/-! ## Claims -/

/-- C1, counterexample: with the credential missing, the handler sends the
single initialization error frame and returns at once — the exit reason is
`none` (the message loop never ran) and the inbound close-action frame is
not processed — whereas the same frame on a successfully initialized
session is processed (`clientClose` exit). The claim that the message loop
still runs after an initialization failure, accepting control messages
exactly as in the success case, is therefore false on the code. -/
theorem C1_counterexample :
    (handle_transcribe_ws none (some "westus2") none true
        [WSMsg.text (Except.ok (JsonValue.obj [("action", JsonValue.str "close")]))]) =
      ⟨[Ev.sent ⟨"error",
          "Failed to initialize speech recognition: Please set api_key and region in your .env file"⟩],
        none, ⟨false, false⟩⟩ ∧
    (handle_transcribe_ws (some "key") (some "westus2") none true
        [WSMsg.text (Except.ok (JsonValue.obj [("action", JsonValue.str "close")]))]).exit =
      some ExitReason.clientClose := by
  constructor <;> rfl

/-- C1 (amended): if initialization of the recognizer fails — missing or
empty credential/region configuration, or any construction error — the
relay sends exactly one error message to the client and does not start
recognition, and the handler returns immediately: the message loop is
never entered (`exit = none`), no inbound frame is processed, and
`stop_recognition` is never invoked. -/
theorem C1_theorem (k r cErr : Option String) (startOk : Bool)
    (frames : List WSMsg)
    (h : (pyFalsy k || pyFalsy r || cErr.isSome) = true) :
    ∃ t, handle_transcribe_ws k r cErr startOk frames =
      ⟨[Ev.sent ⟨"error", "Failed to initialize speech recognition: " ++ t⟩],
        none, ⟨false, false⟩⟩ := by
  by_cases hpk : pyFalsy k = true
  · exact ⟨"Please set api_key and region in your .env file",
      by simp [handle_transcribe_ws, initialize_speech_recognizer, hpk]⟩
  · by_cases hpr : pyFalsy r = true
    · exact ⟨"Please set api_key and region in your .env file",
        by simp [handle_transcribe_ws, initialize_speech_recognizer, hpr]⟩
    · rw [Bool.not_eq_true] at hpk hpr
      cases cErr with
      | none => simp [hpk, hpr] at h
      | some e =>
        exact ⟨e,
          by simp [handle_transcribe_ws, initialize_speech_recognizer, hpk, hpr]⟩

/-- C1, witness: concrete run with the credential missing. -/
theorem C1_witness :
    ∃ t, handle_transcribe_ws none (some "eastus") none true [WSMsg.close] =
      ⟨[Ev.sent ⟨"error", "Failed to initialize speech recognition: " ++ t⟩],
        none, ⟨false, false⟩⟩ :=
  C1_theorem none (some "eastus") none true [WSMsg.close] rfl

/-- C2, counterexample: a well-formed JSON frame whose value is an array
(no `action` field equal to `"close"` anywhere) is not ignored: the loop
body raises `AttributeError` on `data.get`, the loop exits on its own with
that exception, and a `Server error` frame goes out — refuting the claim
that every well-formed non-close frame, whatever its JSON shape, is logged
and ignored with no outbound message and the loop never exits. -/
theorem C2_counterexample :
    (handle_transcribe_ws (some "key") (some "westus2") none true
        [WSMsg.text (Except.ok (JsonValue.arr []))]).exit =
      some (ExitReason.exn "'list' object has no attribute 'get'") ∧
    outboundOf (handle_transcribe_ws (some "key") (some "westus2") none true
        [WSMsg.text (Except.ok (JsonValue.arr []))]).trace =
      [⟨"error", "Server error: 'list' object has no attribute 'get'"⟩] := by
  constructor <;> rfl

/-- C2 (amended): for every sequence of inbound text frames in which each
frame is well-formed JSON parsing to an object (dict) without an `action`
field equal to `"close"`, the message loop never exits on its own, sends
nothing, and performs no recognition call during the sequence: every such
frame is logged and ignored. (Well-formed frames of non-object shape —
array, string, number, boolean, null — instead raise `AttributeError` and
terminate the loop through the server-error path.) -/
theorem C2_theorem (frames : List WSMsg)
    (h : ∀ f ∈ frames, benignFrame f = true) :
    runLoop frames = ([], ExitReason.streamEnd) := by
  induction frames with
  | nil => rfl
  | cons m rest ih =>
    have hm := processFrame_benign m (h m (List.mem_cons_self m rest))
    have hrest := ih (fun f hf => h f (List.mem_cons_of_mem m hf))
    simp [runLoop, hm, hrest]

/-- C2, witness: two object-shaped frames, neither closing. -/
theorem C2_witness :
    runLoop
      [WSMsg.text (Except.ok (JsonValue.obj [("action", JsonValue.str "open")])),
       WSMsg.text (Except.ok (JsonValue.obj [("foo", JsonValue.num 1)]))] =
      ([], ExitReason.streamEnd) :=
  C2_theorem _ (by decide)

/-- C3: whenever initialization succeeded, `stop_recognition` is invoked
exactly once by the `finally` clause, on every exit path of the message
loop (close action, transport close, transport error, stream end, or an
exception in the loop body), and always after the loop's events; the
upstream recognizer is released exactly when recognition had started
(`startOk`), and when recognition never started the stop is a no-op with
no upstream call. -/
theorem C3_theorem (k r : Option String) (startOk : Bool) (frames : List WSMsg)
    (hk : pyFalsy k = false) (hr : pyFalsy r = false) :
    countStopCalls (handle_transcribe_ws k r none startOk frames).trace = 1 ∧
    countUpstreamStops (handle_transcribe_ws k r none startOk frames).trace =
      (if startOk then 1 else 0) ∧
    ∃ pre, (handle_transcribe_ws k r none startOk frames).trace =
      pre ++ Ev.stopCall :: (if startOk then [Ev.upstreamStop] else []) := by
  rw [handle_ok k r startOk frames hk hr]
  refine ⟨?_, ?_, ?_⟩
  · cases hx : (runLoop frames).2 <;> cases startOk <;>
      simp [countStopCalls_append, countStopCalls_map_sent, countStopCalls,
        errEvents]
  · cases hx : (runLoop frames).2 <;> cases startOk <;>
      simp [countUpstreamStops_append, countUpstreamStops_map_sent,
        countUpstreamStops, errEvents]
  · exact ⟨[Ev.startCall, Ev.upstreamStart] ++ (runLoop frames).1.map Ev.sent
      ++ errEvents (runLoop frames).2, by simp⟩

/-- C3, witness: concrete session closed by the transport. -/
theorem C3_witness :
    countStopCalls
      (handle_transcribe_ws (some "key") (some "westus2") none true
        [WSMsg.close]).trace = 1 :=
  (C3_theorem (some "key") (some "westus2") true [WSMsg.close] rfl rfl).1

/-- C4, counterexample: a transport-level `ERROR` frame terminates the
session with no outbound message at all — the handler logs and breaks, so
the client observes neither an error frame nor any other frame before
teardown, refuting the claim that every session-terminating failure is
preceded by at least one error frame. -/
theorem C4_counterexample :
    (handle_transcribe_ws (some "key") (some "westus2") none true
        [WSMsg.error]).exit = some ExitReason.transportError ∧
    outboundOf (handle_transcribe_ws (some "key") (some "westus2") none true
        [WSMsg.error]).trace = [] := by
  constructor <;> rfl

/-- C4 (amended): an unhandled exception in the loop body produces exactly
one trailing `Server error` frame before teardown (and initialization
failure produces its own error frame), but a transport-level error frame
tears the session down with no additional outbound frame: the client sees
exactly the messages the loop had already sent, and nothing announcing the
transport error. -/
theorem C4_theorem (k r : Option String) (startOk : Bool) (frames : List WSMsg)
    (hk : pyFalsy k = false) (hr : pyFalsy r = false) :
    ((handle_transcribe_ws k r none startOk frames).exit =
        some ExitReason.transportError →
      outboundOf (handle_transcribe_ws k r none startOk frames).trace =
        (runLoop frames).1) ∧
    (∀ e, (handle_transcribe_ws k r none startOk frames).exit =
        some (ExitReason.exn e) →
      outboundOf (handle_transcribe_ws k r none startOk frames).trace =
        (runLoop frames).1 ++ [⟨"error", "Server error: " ++ e⟩]) := by
  rw [handle_ok k r startOk frames hk hr]
  constructor
  · intro hex
    simp at hex
    rw [hex, outboundOf_append, outboundOf_append, outboundOf_append,
      outboundOf_map_sent, outboundOf_stopEvents]
    simp [outboundOf, errEvents]
  · intro e hex
    simp at hex
    rw [hex, outboundOf_append, outboundOf_append, outboundOf_append,
      outboundOf_map_sent, outboundOf_stopEvents]
    simp [outboundOf, errEvents]

/-- C4, witness: concrete transport-error teardown with empty outbound. -/
theorem C4_witness :
    outboundOf (handle_transcribe_ws (some "key") (some "francecentral") none
      true [WSMsg.error]).trace = [] :=
  (C4_theorem (some "key") (some "francecentral") true [WSMsg.error]
    rfl rfl).1 rfl

/-- C5: an exception raised in the message-loop body outside the
JSON-parsing branch (such as the `AttributeError` from `data.get` on a
non-dict value) is caught once at the loop's outer boundary and answered
with exactly one outbound message of type `error` and text
`Server error: <exception text>`, placed after the loop's own sends and
before the invocation of `stop_recognition` in cleanup. -/
theorem C5_theorem (k r : Option String) (startOk : Bool) (frames : List WSMsg)
    (e : String) (hk : pyFalsy k = false) (hr : pyFalsy r = false)
    (hx : (runLoop frames).2 = ExitReason.exn e) :
    (handle_transcribe_ws k r none startOk frames).trace =
      [Ev.startCall, Ev.upstreamStart] ++ (runLoop frames).1.map Ev.sent
        ++ Ev.sent ⟨"error", "Server error: " ++ e⟩ ::
            Ev.stopCall :: (if startOk then [Ev.upstreamStop] else []) := by
  rw [handle_ok k r startOk frames hk hr, hx]
  simp [errEvents]

/-- C5, witness: a JSON `null` frame raises, and the session trace shows
the single server-error frame between the loop and the stop call. -/
theorem C5_witness :
    (handle_transcribe_ws (some "key") (some "westus2") none true
        [WSMsg.text (Except.ok JsonValue.null)]).trace =
      [Ev.startCall, Ev.upstreamStart,
       Ev.sent ⟨"error", "Server error: 'NoneType' object has no attribute 'get'"⟩,
       Ev.stopCall, Ev.upstreamStop] :=
  C5_theorem (some "key") (some "westus2") true
    [WSMsg.text (Except.ok JsonValue.null)]
    "'NoneType' object has no attribute 'get'" rfl rfl rfl

/-- C6: every `Canceled` event yields one error frame whose text is
exactly `Recognition canceled. Reason: <reason-value>`, with
` Error details: <details-value>` appended exactly when the cancellation
reason is `Error`; in particular, for details `connection lost` the text
ends with ` Error details: connection lost`. -/
theorem C6_theorem (reason : CancellationReason) (details : String) :
    _canceled_handler ⟨reason, details⟩ =
      ⟨"error",
        if reason = CancellationReason.Error then
          "Recognition canceled. Reason: " ++ cancellationReasonDisplay reason
            ++ " Error details: " ++ details
        else
          "Recognition canceled. Reason: " ++ cancellationReasonDisplay reason⟩ ∧
    (_canceled_handler ⟨CancellationReason.Error, "connection lost"⟩).text =
      "Recognition canceled. Reason: CancellationReason.Error Error details: connection lost" := by
  refine ⟨?_, rfl⟩
  cases reason <;> simp [_canceled_handler]

/-- C7: `start_recognition` and `stop_recognition` are idempotent: with a
recognizer present and not running, two consecutive starts (the first one
succeeding upstream) call the upstream start exactly once — the second
call is a no-op because the running flag is set; with no recognizer,
`start_recognition` changes nothing and makes no upstream call; and two
consecutive stops from a running state (the first succeeding) call the
upstream stop exactly once. -/
theorem C7_theorem (m : TranscriptionManager) (ok2 ok3 b : Bool)
    (h1 : m.speech_recognizer = true) (h2 : m.is_running = false) :
    countUpstreamStarts ((start_recognition m true).2
        ++ (start_recognition (start_recognition m true).1 ok2).2) = 1 ∧
    start_recognition ⟨false, b⟩ ok3 = (⟨false, b⟩, [Ev.startCall]) ∧
    countUpstreamStops ((stop_recognition ⟨true, true⟩ true).2
        ++ (stop_recognition (stop_recognition ⟨true, true⟩ true).1 ok3).2) = 1 := by
  obtain ⟨sr, ir⟩ := m
  subst h1
  subst h2
  exact ⟨rfl, rfl, rfl⟩

/-- C7, witness: concrete double start from a fresh initialized manager. -/
theorem C7_witness :
    countUpstreamStarts ((start_recognition ⟨true, false⟩ true).2
        ++ (start_recognition (start_recognition ⟨true, false⟩ true).1 true).2) = 1 :=
  (C7_theorem ⟨true, false⟩ true true true rfl rfl).1

/-- C8: an inbound text frame that is not valid JSON is answered with
exactly one error frame whose text carries the parse failure
(`Invalid JSON: <parse error>`), and the loop continues: the rest of the
frames are processed exactly as they would have been, with no state
change. -/
theorem C8_theorem (e : String) (rest : List WSMsg) :
    runLoop (WSMsg.text (Except.error e) :: rest) =
      (⟨"error", "Invalid JSON: " ++ e⟩ :: (runLoop rest).1,
       (runLoop rest).2) := by
  simp [runLoop, processFrame]

/-- C9: a final `Recognized` event with reason `RecognizedSpeech`
schedules exactly one `final_transcript` message carrying the result text,
and one with reason `NoMatch` schedules no outbound message at all. -/
theorem C9_theorem (t : String) :
    _recognized_handler ⟨⟨ResultReason.RecognizedSpeech, t⟩⟩ =
      [⟨"final_transcript", t⟩] ∧
    _recognized_handler ⟨⟨ResultReason.NoMatch, t⟩⟩ = [] :=
  ⟨rfl, rfl⟩

/-- C10: `_send_message` never raises, whatever the socket send does: it
always returns normally with the manager state unchanged, and when the
send raised it only records the swallowed failure in the log text. -/
theorem C10_theorem (send_json : OutMsg → Except String Unit)
    (st : TranscriptionManager) (message : OutMsg) :
    ∃ lg, _send_message send_json st message = Except.ok (st, lg) ∧
      (lg = none ∨ ∃ e, send_json message = Except.error e ∧
        lg = some ("Failed to send message to client: " ++ e)) := by
  cases h : send_json message with
  | ok u => exact ⟨none, by simp [_send_message, h], Or.inl rfl⟩
  | error e =>
    exact ⟨some ("Failed to send message to client: " ++ e),
      by simp [_send_message, h], Or.inr ⟨e, rfl, rfl⟩⟩
